import Mathlib

/-!
Shallow embedding of `src/bot/questbot.py` (the quest bot of sunsakis/portal).

The bot keeps, per chat user, a `context.user_data` dict with two keys,
`state` (one of the strings `INIT`, `LOCATION_SHARED`, `QUEST_SHARED`) and
`quest` (free text).  Four async handlers react to inbound Telegram updates:
`start` (the /start command), `handle_location` (location messages),
`handle_quest` (text messages) and `edit_quest` (the /edit command).
`handle_location` forwards a payload to a realtime backend over socket.io
when the state is `QUEST_SHARED`.

Each handler is embedded as a pure function from the inbound `Update` and
the current per-user data to a result record that collects, in order, the
chat replies sent, the socket.io events emitted, the delete-message requests
issued, and the Python exception (if any) that escapes the handler.  Effects
performed before an exception is raised are still recorded.  Telegram
coordinates are floats used only as opaque pass-through values, so they are
modelled as integers; `live_period` is an optional integer as in the API.
Backend reachability is an explicit boolean parameter: when it is false the
`sio.connect` call raises, as an unreachable server would.
-/

namespace Portal

/-- Telegram user attached to a message (`from_user`). -/
structure TUser where
  id : Int
  first_name : String
deriving DecidableEq, Repr

/-- A Telegram location object: coordinates plus the optional
`live_period` that is present exactly on live (continuously updating)
shares. -/
structure Location where
  latitude : Int
  longitude : Int
  live_period : Option Int
deriving DecidableEq, Repr

/-- A Telegram message, with only the fields `questbot.py` touches. -/
structure Message where
  chat_id : Int
  message_id : Int
  from_user : TUser
  location : Option Location
  text : Option String
deriving DecidableEq, Repr

/-- A Telegram update: at most one of `message` / `edited_message` is set in
real traffic, but the embedding keeps both optional fields as the Python
object does, since `handle_location` reads both. -/
structure Update where
  message : Option Message
  edited_message : Option Message
deriving DecidableEq, Repr

/-- The per-user `context.user_data` dict: key `state` and key `quest`,
each absent (`none`) until first written.  Nothing in the source ever
deletes a key, so `'quest' in context.user_data` is `quest.isSome`. -/
structure UserData where
  state : Option String
  quest : Option String
deriving DecidableEq, Repr

/-- Values appearing in the socket.io payload dict. -/
inductive PyVal where
  | int : Int → PyVal
  | str : String → PyVal
  | pynone : PyVal
deriving DecidableEq, Repr

/-- The Python exceptions the handlers can raise: attribute access on
`None`, a missing dict key, and a socket.io connection failure. -/
inductive PyErr where
  | attributeError : PyErr
  | keyError : PyErr
  | connectionError : PyErr
deriving DecidableEq, Repr

/-- An inline keyboard button (label and url). -/
structure Button where
  label : String
  url : String
deriving DecidableEq, Repr

/-- A chat reply: its text and the optional inline-keyboard markup. -/
structure Reply where
  body : String
  markup : Option (List (List Button))
deriving DecidableEq, Repr

/-- A socket.io event: event name and payload dict, the payload kept as an
ordered key/value list so that the exact key set is part of the model. -/
structure SioEvent where
  ename : String
  payload : List (String × PyVal)
deriving DecidableEq, Repr

/-- The observable outcome of running one handler: the updated per-user
data, the replies sent, the socket.io events emitted, the
(chat_id, message_id) delete requests issued, and the exception (if any)
that escaped the handler. -/
structure Res where
  data : UserData
  replies : List Reply
  forwards : List SioEvent
  deletes : List (Int × Int)
  exc : Option PyErr
deriving DecidableEq, Repr

/-- Reply text of `start`. -/
def startText : String :=
  "Click 🧷 icon, then 📍 Location and Share Your Live Location to start."

/-- Reply text of the quest prompt in `handle_location`. -/
def questPromptText : String :=
  "What activity do you want to share? The more fun it is, the more people will join your quest. 📜"

/-- Reply text of the live-location request in `handle_location`. -/
def liveRequestText : String :=
  "Please share your live location."

/-- Reply text of the confirmation in `handle_quest`. -/
def confirmText : String :=
  "Your quest has been shared with the world. You can /edit it or Stop Location Sharing if finished. 🌍"

/-- Reply text of the prompt in `edit_quest`. -/
def editPromptText : String :=
  "Please enter the new quest:"

/-- Reply text of the nothing-to-edit branch of `edit_quest`. -/
def noQuestText : String :=
  "No quest to edit. Please share your location and create a quest first."

/-- The inline button attached to the `handle_quest` confirmation. -/
def mapButton : Button := ⟨"Open map", "t.me/MapYourQuestBot/map"⟩

/-- Serialization of the optional `live_period` into the payload: an int
when present, JSON null (Python `None`) when absent. -/
def pyOpt : Option Int → PyVal
  | some n => .int n
  | none => .pynone

/-- The socket.io event emitted by `handle_location`: event name
`send_location`, payload keys exactly `latitude`, `longitude`,
`live_period`, `user_id`, `quest`, `name`, in source order. -/
def sendLocationEvent (loc : Location) (em : Message) (q : String) : SioEvent :=
  ⟨"send_location",
    [("latitude", .int loc.latitude),
     ("longitude", .int loc.longitude),
     ("live_period", pyOpt loc.live_period),
     ("user_id", .int em.from_user.id),
     ("quest", .str q),
     ("name", .str em.from_user.first_name)]⟩

/-- Second half of `handle_location`, after the optional
quest-prompt/state-update block: `d1`/`r1` are the user data and replies
produced so far.  Reads `context.user_data['state']` (always present here),
forwards when it equals `QUEST_SHARED` — raising `KeyError` if `quest` is
missing (the f-string print indexes it first) or `ConnectionError` if the
backend is unreachable — and otherwise replies through `update.message`,
raising `AttributeError` when that field is `None`. -/
def locTail (u : Update) (loc : Location) (em : Message) (d1 : UserData)
    (r1 : List Reply) (backendUp : Bool) : Res :=
  if d1.state = some "QUEST_SHARED" then
    match d1.quest with
    | none => ⟨d1, r1, [], [], some .keyError⟩
    | some q =>
      if backendUp then ⟨d1, r1, [sendLocationEvent loc em q], [], none⟩
      else ⟨d1, r1, [], [], some .connectionError⟩
  else
    match u.message with
    | some _ => ⟨d1, r1 ++ [⟨liveRequestText, none⟩], [], [], none⟩
    | none => ⟨d1, r1, [], [], some .attributeError⟩

/-- `handle_location(update, context)`.  Dereferences
`update.edited_message.location` unconditionally (AttributeError when
`edited_message` is `None`); when the location is present: if the state is
neither `LOCATION_SHARED` nor `QUEST_SHARED` it replies with the quest
prompt and sets the state to `LOCATION_SHARED`, then continues with
`locTail` on the updated data. -/
def handle_location (u : Update) (d : UserData) (backendUp : Bool) : Res :=
  match u.edited_message with
  | none => ⟨d, [], [], [], some .attributeError⟩
  | some em =>
    match em.location with
    | none => ⟨d, [], [], [], none⟩
    | some loc =>
      if d.state ≠ some "LOCATION_SHARED" ∧ d.state ≠ some "QUEST_SHARED" then
        locTail u loc em { d with state := some "LOCATION_SHARED" }
          [⟨questPromptText, none⟩] backendUp
      else
        locTail u loc em d [] backendUp

/-- `start(update, context)`: replies with the instructions, sets the state
to `INIT`, then deletes the triggering command message.  `update.message`
is dereferenced, so a command update without it raises. -/
def start (u : Update) (d : UserData) : Res :=
  match u.message with
  | none => ⟨d, [], [], [], some .attributeError⟩
  | some m =>
    ⟨{ d with state := some "INIT" }, [⟨startText, none⟩], [],
      [(m.chat_id, m.message_id)], none⟩

/-- `handle_quest(update, context)`: when `update.message.text` is truthy
(non-empty) and the state equals `LOCATION_SHARED`, stores the text as the
quest, replies with the confirmation plus the map button, and sets the
state to `QUEST_SHARED`; otherwise does nothing. -/
def handle_quest (u : Update) (d : UserData) : Res :=
  match u.message with
  | none => ⟨d, [], [], [], some .attributeError⟩
  | some m =>
    match m.text with
    | none => ⟨d, [], [], [], none⟩
    | some t =>
      if t ≠ "" ∧ d.state = some "LOCATION_SHARED" then
        ⟨{ d with state := some "QUEST_SHARED", quest := some t },
          [⟨confirmText, some [[mapButton]]⟩], [], [], none⟩
      else ⟨d, [], [], [], none⟩

/-- `edit_quest(update, context)`: deletes the /edit command message first,
then, if the `quest` key exists, prompts for the new quest and rewinds the
state to `LOCATION_SHARED`; otherwise replies that there is nothing to
edit.  The stored quest itself is not touched in either branch. -/
def edit_quest (u : Update) (d : UserData) : Res :=
  match u.message with
  | none => ⟨d, [], [], [], some .attributeError⟩
  | some m =>
    if (d.quest).isSome then
      ⟨{ d with state := some "LOCATION_SHARED" }, [⟨editPromptText, none⟩], [],
        [(m.chat_id, m.message_id)], none⟩
    else
      ⟨d, [⟨noQuestText, none⟩], [], [(m.chat_id, m.message_id)], none⟩

/-- An inbound event dispatched by the `Application`'s handler table:
`CommandHandler("start", start)`, `CommandHandler("edit", edit_quest)`,
`MessageHandler(filters.LOCATION, handle_location)`,
`MessageHandler(filters.TEXT, handle_quest)`.  Location events carry the
backend reachability at the moment they are handled. -/
inductive InEvent where
  | startCmd (u : Update)
  | editCmd (u : Update)
  | locationMsg (u : Update) (backendUp : Bool)
  | textMsg (u : Update)
deriving DecidableEq, Repr

/-- Dispatch of one inbound event to its handler. -/
def stepEv (d : UserData) : InEvent → Res
  | .startCmd u => start u d
  | .editCmd u => edit_quest u d
  | .locationMsg u b => handle_location u d b
  | .textMsg u => handle_quest u d

/-- Whether an inbound event is a plain text message. -/
def isText : InEvent → Bool
  | .textMsg _ => true
  | _ => false

/-- A fresh session: `context.user_data` holds neither key. -/
def initData : UserData := ⟨none, none⟩

/-- Run a sequence of inbound events for one user, threading the per-user
data and concatenating, in order, every socket.io event forwarded to the
backend along the way. -/
def runAcc (d : UserData) : List InEvent → UserData × List SioEvent
  | [] => (d, [])
  | e :: rest =>
    let r := stepEv d e
    let tail := runAcc r.data rest
    (tail.1, r.forwards ++ tail.2)

/-! Concrete fixtures used to instantiate theorems on explicit inputs. -/

/-- A sample chat user. -/
def annUser : TUser := ⟨7, "Ann"⟩

/-- A live location: `live_period` present (900 seconds). -/
def liveLoc : Location := ⟨10, 20, some 900⟩

/-- A static location: `live_period` absent. -/
def staticLoc : Location := ⟨10, 20, none⟩

/-- The message carried by a live-location update (edited message). -/
def liveEditedMsg : Message := ⟨1, 2, annUser, some liveLoc, none⟩

/-- A live-location update: only `edited_message` is set, as in real
Telegram traffic for continuous live updates. -/
def liveEditedUpdate : Update := ⟨none, some liveEditedMsg⟩

/-- A static location share delivered, hypothetically, as an edited
message. -/
def staticEditedUpdate : Update := ⟨none, some ⟨1, 3, annUser, some staticLoc, none⟩⟩

/-- A static location pin as Telegram actually delivers it: a plain
(non-edited) message carrying the location. -/
def pinMsgUpdate : Update := ⟨some ⟨1, 6, annUser, some staticLoc, none⟩, none⟩

/-- A command update (plain message with command text). -/
def cmdUpdate : Update := ⟨some ⟨1, 4, annUser, none, some "/start"⟩, none⟩

/-- A plain text message update. -/
def textUpdate : Update := ⟨some ⟨1, 5, annUser, none, some "Tea party at the fountain"⟩, none⟩

/-- A session in `INIT` with no quest. -/
def dInit : UserData := ⟨some "INIT", none⟩

/-- A session in `LOCATION_SHARED` with no quest. -/
def dLS : UserData := ⟨some "LOCATION_SHARED", none⟩

/-- A session in `QUEST_SHARED` holding a quest. -/
def dQS : UserData := ⟨some "QUEST_SHARED", some "Tea party"⟩

/-! Helper lemmas about single handlers and runs. -/

/-- When the state reaching `locTail` is not `QUEST_SHARED` and the update
has no plain `message` field, the fallback reply raises `AttributeError`. -/
lemma locTail_exc_of_no_message (u : Update) (loc : Location) (em : Message)
    (d1 : UserData) (r1 : List Reply) (b : Bool)
    (hs : d1.state ≠ some "QUEST_SHARED") (hm : u.message = none) :
    (locTail u loc em d1 r1 b).exc = some .attributeError := by
  unfold locTail
  rw [if_neg hs, hm]

/-- `locTail` never emits a forward when the quest key is absent. -/
lemma locTail_forwards_of_quest_none (u : Update) (loc : Location) (em : Message)
    (d1 : UserData) (r1 : List Reply) (b : Bool) (h : d1.quest = none) :
    (locTail u loc em d1 r1 b).forwards = [] := by
  unfold locTail
  split
  · simp [h]
  · split <;> rfl

/-- `locTail` leaves the user data untouched. -/
lemma locTail_data (u : Update) (loc : Location) (em : Message)
    (d1 : UserData) (r1 : List Reply) (b : Bool) :
    (locTail u loc em d1 r1 b).data = d1 := by
  unfold locTail
  split
  · split <;> first | rfl | split <;> rfl
  · split <;> rfl

/-- `locTail` never forwards when the state is not `QUEST_SHARED`. -/
lemma locTail_forwards_of_state_ne (u : Update) (loc : Location) (em : Message)
    (d1 : UserData) (r1 : List Reply) (b : Bool)
    (h : d1.state ≠ some "QUEST_SHARED") :
    (locTail u loc em d1 r1 b).forwards = [] := by
  unfold locTail
  rw [if_neg h]
  split <;> rfl

/-- `handle_location` never changes the quest. -/
lemma handle_location_quest (u : Update) (d : UserData) (b : Bool) :
    (handle_location u d b).data.quest = d.quest := by
  unfold handle_location
  split
  · rfl
  split
  · rfl
  split <;> rw [locTail_data]

/-- `handle_location` emits no forward when the quest key is absent. -/
lemma handle_location_forwards_of_quest_none (u : Update) (d : UserData) (b : Bool)
    (h : d.quest = none) :
    (handle_location u d b).forwards = [] := by
  unfold handle_location
  split
  · rfl
  split
  · rfl
  split <;> exact locTail_forwards_of_quest_none _ _ _ _ _ _ h

/-- `handle_location` emits no forward when the state is not
`QUEST_SHARED`: the only state it may write is `LOCATION_SHARED`. -/
lemma handle_location_forwards_of_state_ne (u : Update) (d : UserData) (b : Bool)
    (h : d.state ≠ some "QUEST_SHARED") :
    (handle_location u d b).forwards = [] := by
  unfold handle_location
  split
  · rfl
  split
  · rfl
  split
  · exact locTail_forwards_of_state_ne _ _ _ _ _ _ (by simp)
  · exact locTail_forwards_of_state_ne _ _ _ _ _ _ h

/-- The state written by `handle_location` is `QUEST_SHARED` only if it
already was. -/
lemma handle_location_state_ne (u : Update) (d : UserData) (b : Bool)
    (h : d.state ≠ some "QUEST_SHARED") :
    (handle_location u d b).data.state ≠ some "QUEST_SHARED" := by
  unfold handle_location
  split
  · exact h
  split
  · exact h
  split <;> rw [locTail_data]
  · simp
  · exact h

/-- One dispatched event never changes the quest unless it is a text
message. -/
lemma stepEv_quest_of_not_text (d : UserData) (e : InEvent) (h : isText e = false) :
    (stepEv d e).data.quest = d.quest := by
  cases e with
  | startCmd u =>
    simp only [stepEv]
    unfold start
    split <;> rfl
  | editCmd u =>
    simp only [stepEv]
    unfold edit_quest
    split
    · rfl
    · split <;> rfl
  | locationMsg u b => exact handle_location_quest u d b
  | textMsg u => simp [isText] at h

/-- A dispatched event can only grow the quest key: it never deletes it. -/
lemma stepEv_quest_mono (d : UserData) (e : InEvent) (h : (d.quest).isSome) :
    ((stepEv d e).data.quest).isSome := by
  cases e with
  | startCmd u =>
    simp only [stepEv]
    unfold start
    split
    · exact h
    · exact h
  | editCmd u =>
    simp only [stepEv]
    unfold edit_quest
    split
    · exact h
    · split
      · exact h
      · exact h
  | locationMsg u b =>
    simp only [stepEv]
    rw [handle_location_quest]
    exact h
  | textMsg u =>
    simp only [stepEv]
    unfold handle_quest
    split
    · exact h
    · split
      · exact h
      · split
        · simp
        · exact h

/-- A dispatched event emits no forward when the quest key is absent. -/
lemma stepEv_forwards_of_quest_none (d : UserData) (e : InEvent)
    (h : d.quest = none) : (stepEv d e).forwards = [] := by
  cases e with
  | startCmd u =>
    simp only [stepEv]
    unfold start
    split <;> rfl
  | editCmd u =>
    simp only [stepEv]
    unfold edit_quest
    split
    · rfl
    · split <;> rfl
  | locationMsg u b => exact handle_location_forwards_of_quest_none u d b h
  | textMsg u =>
    simp only [stepEv]
    unfold handle_quest
    split
    · rfl
    · split
      · rfl
      · split <;> rfl

/-- A dispatched event emits no forward when the state is not
`QUEST_SHARED`. -/
lemma stepEv_forwards_of_state_ne (d : UserData) (e : InEvent)
    (h : d.state ≠ some "QUEST_SHARED") : (stepEv d e).forwards = [] := by
  cases e with
  | startCmd u =>
    simp only [stepEv]
    unfold start
    split <;> rfl
  | editCmd u =>
    simp only [stepEv]
    unfold edit_quest
    split
    · rfl
    · split <;> rfl
  | locationMsg u b => exact handle_location_forwards_of_state_ne u d b h
  | textMsg u =>
    simp only [stepEv]
    unfold handle_quest
    split
    · rfl
    · split
      · rfl
      · split <;> rfl

/-- A non-text dispatched event never moves the state to `QUEST_SHARED`. -/
lemma stepEv_state_ne (d : UserData) (e : InEvent) (ht : isText e = false)
    (h : d.state ≠ some "QUEST_SHARED") :
    (stepEv d e).data.state ≠ some "QUEST_SHARED" := by
  cases e with
  | startCmd u =>
    simp only [stepEv]
    unfold start
    split
    · exact h
    · simp
  | editCmd u =>
    simp only [stepEv]
    unfold edit_quest
    split
    · exact h
    · split
      · simp
      · exact h
  | locationMsg u b => exact handle_location_state_ne u d b h
  | textMsg u => simp [isText] at ht

/-- Over a whole run, an existing quest key persists. -/
lemma runAcc_quest_mono (evs : List InEvent) (d : UserData)
    (h : (d.quest).isSome) : (((runAcc d evs).1).quest).isSome := by
  induction evs generalizing d with
  | nil => exact h
  | cons e rest ih => exact ih _ (stepEv_quest_mono d e h)

/-- A run whose final quest key is absent forwarded nothing. -/
lemma runAcc_forwards_of_quest_none (evs : List InEvent) (d : UserData)
    (h : ((runAcc d evs).1).quest = none) : (runAcc d evs).2 = [] := by
  induction evs generalizing d with
  | nil => rfl
  | cons e rest ih =>
    have hmid : (((stepEv d e).data).quest) = none := by
      cases hq : ((stepEv d e).data).quest with
      | none => rfl
      | some q =>
        have := runAcc_quest_mono rest (stepEv d e).data (by rw [hq]; rfl)
        rw [show (runAcc d (e :: rest)).1 = (runAcc (stepEv d e).data rest).1 from rfl]
          at h
        rw [h] at this
        simp at this
    have hd : d.quest = none := by
      cases hq : d.quest with
      | none => rfl
      | some q =>
        have := stepEv_quest_mono d e (by rw [hq]; rfl)
        rw [hmid] at this
        simp at this
    show (stepEv d e).forwards ++ (runAcc (stepEv d e).data rest).2 = []
    rw [stepEv_forwards_of_quest_none d e hd, ih _ h]
    rfl

/-- A run of non-text events from a state other than `QUEST_SHARED`
forwards nothing. -/
lemma runAcc_forwards_of_no_text (evs : List InEvent) (d : UserData)
    (hs : d.state ≠ some "QUEST_SHARED") (ht : ∀ e ∈ evs, isText e = false) :
    (runAcc d evs).2 = [] := by
  induction evs generalizing d with
  | nil => rfl
  | cons e rest ih =>
    show (stepEv d e).forwards ++ (runAcc (stepEv d e).data rest).2 = []
    rw [stepEv_forwards_of_state_ne d e hs,
      ih _ (stepEv_state_ne d e (ht e (by simp)) hs)
        (fun x hx => ht x (by simp [hx]))]
    rfl

/-! Claim theorems. -/

/-- C2: whenever a live location share (an edited message carrying a
location with a live period) is handled while the session state is
`QUEST_SHARED`, exactly one event is forwarded to the realtime backend: a
single `send_location` event whose payload keys are exactly `latitude`,
`longitude`, `live_period`, `user_id`, `quest`, `name`, with `quest` the
stored quest, `user_id` the sender's id, `live_period` the input's live
period, and `name` the sender's first name. -/
theorem quest_shared_live_share_forwards_once (u : Update) (em : Message)
    (loc : Location) (p : Int) (d : UserData) (q : String)
    (hem : u.edited_message = some em) (hloc : em.location = some loc)
    (hlp : loc.live_period = some p)
    (hst : d.state = some "QUEST_SHARED") (hq : d.quest = some q) :
    (handle_location u d true).forwards =
      [⟨"send_location",
        [("latitude", .int loc.latitude),
         ("longitude", .int loc.longitude),
         ("live_period", .int p),
         ("user_id", .int em.from_user.id),
         ("quest", .str q),
         ("name", .str em.from_user.first_name)]⟩] := by
  unfold handle_location
  simp only [hem, hloc]
  rw [if_neg (by simp [hst])]
  unfold locTail
  rw [if_pos hst, hq]
  simp [sendLocationEvent, pyOpt, hlp]

/-- C2 witness: the forward produced on a concrete live update in
`QUEST_SHARED`. -/
theorem quest_shared_live_share_forwards_once_witness :
    (handle_location liveEditedUpdate dQS true).forwards =
      [⟨"send_location",
        [("latitude", .int 10),
         ("longitude", .int 20),
         ("live_period", .int 900),
         ("user_id", .int 7),
         ("quest", .str "Tea party"),
         ("name", .str "Ann")]⟩] :=
  quest_shared_live_share_forwards_once liveEditedUpdate liveEditedMsg liveLoc
    900 dQS "Tea party" rfl rfl rfl rfl rfl

/-- C6: a live location share (edited message carrying a location, no plain
message field) handled in state `INIT` moves the state to
`LOCATION_SHARED`, the only reply issued is the quest prompt, and no
forward is dispatched.  (The handler then raises `AttributeError` on the
fallback `update.message.reply_text`; the reply list records what was
actually sent.) -/
theorem init_live_share_transitions (u : Update) (em : Message)
    (loc : Location) (d : UserData) (b : Bool)
    (hem : u.edited_message = some em) (hloc : em.location = some loc)
    (hmsg : u.message = none) (hst : d.state = some "INIT") :
    (handle_location u d b).data.state = some "LOCATION_SHARED"
      ∧ (handle_location u d b).replies = [⟨questPromptText, none⟩]
      ∧ (handle_location u d b).forwards = [] := by
  unfold handle_location
  simp only [hem, hloc]
  rw [if_pos (by simp [hst])]
  unfold locTail
  rw [if_neg (by simp), hmsg]
  simp

/-- C6 witness: concrete live update in `INIT`. -/
theorem init_live_share_transitions_witness :
    (handle_location liveEditedUpdate dInit true).data.state =
        some "LOCATION_SHARED"
      ∧ (handle_location liveEditedUpdate dInit true).replies =
        [⟨questPromptText, none⟩]
      ∧ (handle_location liveEditedUpdate dInit true).forwards = [] :=
  init_live_share_transitions liveEditedUpdate liveEditedMsg liveLoc dInit
    true rfl rfl rfl rfl

/-- C7: a text message handled in state `LOCATION_SHARED` stores the text
as the quest, moves the state to `QUEST_SHARED`, replies with the
confirmation carrying the map-link button, and dispatches no forward. -/
theorem location_shared_text_sets_quest (u : Update) (m : Message)
    (t : String) (d : UserData)
    (hm : u.message = some m) (ht : m.text = some t) (hne : t ≠ "")
    (hst : d.state = some "LOCATION_SHARED") :
    handle_quest u d =
      ⟨{ d with state := some "QUEST_SHARED", quest := some t },
        [⟨confirmText, some [[mapButton]]⟩], [], [], none⟩ := by
  unfold handle_quest
  simp only [hm, ht]
  rw [if_pos ⟨hne, hst⟩]

/-- C7 witness: concrete text message in `LOCATION_SHARED`. -/
theorem location_shared_text_sets_quest_witness :
    handle_quest textUpdate dLS =
      ⟨⟨some "QUEST_SHARED", some "Tea party at the fountain"⟩,
        [⟨confirmText, some [[mapButton]]⟩], [], [], none⟩ :=
  location_shared_text_sets_quest textUpdate ⟨1, 5, annUser, none,
    some "Tea party at the fountain"⟩ "Tea party at the fountain" dLS
    rfl rfl (by decide) rfl

/-- C8: a text message handled in any state other than `LOCATION_SHARED`
(including `QUEST_SHARED` and a fresh session) is a no-op: data unchanged
(the quest in particular is not overwritten), no reply, no forward, no
delete, no exception. -/
theorem text_elsewhere_is_noop (u : Update) (m : Message) (d : UserData)
    (hm : u.message = some m) (hst : d.state ≠ some "LOCATION_SHARED") :
    handle_quest u d = ⟨d, [], [], [], none⟩ := by
  unfold handle_quest
  simp only [hm]
  cases htext : m.text with
  | none => rfl
  | some t => exact if_neg (fun hc => hst hc.2)

/-- C8 witness: concrete text message in `QUEST_SHARED` leaves everything
unchanged. -/
theorem text_elsewhere_is_noop_witness :
    handle_quest textUpdate dQS = ⟨dQS, [], [], [], none⟩ :=
  text_elsewhere_is_noop textUpdate ⟨1, 5, annUser, none,
    some "Tea party at the fountain"⟩ dQS rfl (by decide)

/-- C1: the code has no `live_period` guard at all, contradicting both the
claim and the source's own comment (`If the location is not live, request a
live location`).  Evaluating `handle_location` on a static share
(`live_period` absent) delivered as an edited message: in `INIT` the state
changes to `LOCATION_SHARED` and the reply is the quest prompt, not the
corrective live-location request; in `QUEST_SHARED` the static share is
forwarded to the backend with `live_period` null and no corrective reply
is sent. -/
theorem static_share_not_rejected :
    (handle_location staticEditedUpdate dInit true).data.state =
        some "LOCATION_SHARED"
      ∧ (handle_location staticEditedUpdate dInit true).replies =
        [⟨questPromptText, none⟩]
      ∧ (handle_location staticEditedUpdate dQS true).forwards =
        [⟨"send_location",
          [("latitude", .int 10),
           ("longitude", .int 20),
           ("live_period", .pynone),
           ("user_id", .int 7),
           ("quest", .str "Tea party"),
           ("name", .str "Ann")]⟩]
      ∧ (handle_location staticEditedUpdate dQS true).replies = [] := by
  refine ⟨rfl, rfl, ?_, rfl⟩
  rfl

/-- C3 counterexample: from `QUEST_SHARED` with quest `Tea party`, the
/start command moves the state to `INIT` but leaves the quest stored, so
the operation that moves the state out of `QUEST_SHARED` does not leave the
session without a stored quest, and the claimed invariant (quest non-empty
only in `QUEST_SHARED`) is violated by the resulting session. -/
theorem start_keeps_quest_counterexample :
    (start cmdUpdate dQS).data.state = some "INIT"
      ∧ (start cmdUpdate dQS).data.quest = some "Tea party"
      ∧ (start cmdUpdate dQS).exc = none := ⟨rfl, rfl, rfl⟩

/-- C3 amended: the reverse invariant — the quest key is present whenever
the state is `QUEST_SHARED` — is preserved by every dispatched event; but
neither `start` nor `edit_quest` clears the stored quest, so a session
moved out of `QUEST_SHARED` retains it and the claimed direction fails. -/
theorem quest_shared_has_quest_invariant :
    (∀ (d : UserData) (e : InEvent),
        (d.state = some "QUEST_SHARED" → (d.quest).isSome) →
        ((stepEv d e).data.state = some "QUEST_SHARED" →
          ((stepEv d e).data.quest).isSome))
      ∧ (∀ (u : Update) (d : UserData), (start u d).data.quest = d.quest)
      ∧ (∀ (u : Update) (d : UserData),
          (edit_quest u d).data.quest = d.quest) := by
  refine ⟨?_, ?_, ?_⟩
  · intro d e h
    cases e with
    | startCmd u =>
      simp only [stepEv]
      unfold start
      split
      · exact h
      · intro hc
        simp at hc
    | editCmd u =>
      simp only [stepEv]
      unfold edit_quest
      split
      · exact h
      · split
        · intro hc
          simp at hc
        · exact h
    | locationMsg u b =>
      simp only [stepEv]
      intro hs
      rw [handle_location_quest]
      by_cases hq : d.state = some "QUEST_SHARED"
      · exact h hq
      · exact absurd hs (handle_location_state_ne u d b hq)
    | textMsg u =>
      simp only [stepEv]
      unfold handle_quest
      split
      · exact h
      · split
        · exact h
        · split
          · intro hx
            simp
          · exact h
  · intro u d
    unfold start
    split <;> rfl
  · intro u d
    unfold edit_quest
    split
    · rfl
    · split <;> rfl

/-- C3 amended witness: a concrete text message moves a `LOCATION_SHARED`
session into `QUEST_SHARED` with the quest key present. -/
theorem quest_shared_has_quest_invariant_witness :
    ((stepEv dLS (InEvent.textMsg textUpdate)).data.quest).isSome :=
  quest_shared_has_quest_invariant.1 dLS (InEvent.textMsg textUpdate)
    (by decide) (by decide)

/-- C4 counterexample: with the backend unreachable, the socket.io connect
raises and the exception escapes `handle_location` — there is no exception
handling around `sio.connect` / `sio.emit`, so the failure does propagate
out of the location-handling path. -/
theorem forward_failure_raises_counterexample :
    (handle_location liveEditedUpdate dQS false).exc =
      some PyErr.connectionError := rfl

/-- C4 amended: a backend failure during a forward leaves the session data
unchanged, sends no reply to the chat user, dispatches no forward and no
delete, but raises `ConnectionError` out of `handle_location` instead of
being swallowed. -/
theorem forward_failure_effects (u : Update) (em : Message) (loc : Location)
    (d : UserData) (q : String)
    (hem : u.edited_message = some em) (hloc : em.location = some loc)
    (hst : d.state = some "QUEST_SHARED") (hq : d.quest = some q) :
    handle_location u d false = ⟨d, [], [], [], some .connectionError⟩ := by
  unfold handle_location
  simp only [hem, hloc]
  rw [if_neg (by simp [hst])]
  unfold locTail
  rw [if_pos hst, hq]
  rfl

/-- C4 amended witness: concrete live update in `QUEST_SHARED` with the
backend down. -/
theorem forward_failure_effects_witness :
    handle_location liveEditedUpdate dQS false =
      ⟨dQS, [], [], [], some PyErr.connectionError⟩ :=
  forward_failure_effects liveEditedUpdate liveEditedMsg liveLoc dQS
    "Tea party" rfl rfl rfl rfl

/-- C5: starting from the fresh session, a run in which the quest key was
never set (its final quest is `none`; by the third conjunct the key, once
present, persists, so this says it was never set) forwards nothing to the
backend; moreover only text-message events can change the quest, so no
forward occurs before a text message has set the quest. -/
theorem no_forward_before_quest_set :
    (∀ evs : List InEvent,
        ((runAcc initData evs).1).quest = none → (runAcc initData evs).2 = [])
      ∧ (∀ (d : UserData) (e : InEvent),
          isText e = false → ((stepEv d e).data).quest = d.quest)
      ∧ (∀ (d : UserData) (e : InEvent),
          (d.quest).isSome → (((stepEv d e).data).quest).isSome) :=
  ⟨fun evs h => runAcc_forwards_of_quest_none evs initData h,
    stepEv_quest_of_not_text, stepEv_quest_mono⟩

/-- C5 witness: a concrete run (start, then a live location share in a
quest-less session) forwards nothing. -/
theorem no_forward_before_quest_set_witness :
    (runAcc initData
      [InEvent.startCmd cmdUpdate,
       InEvent.locationMsg liveEditedUpdate true]).2 = [] :=
  no_forward_before_quest_set.1
    [InEvent.startCmd cmdUpdate, InEvent.locationMsg liveEditedUpdate true]
    (by decide)

/-- C9: the /edit command with an existing quest rewinds the state to
`LOCATION_SHARED` and prompts for new quest text; with no existing quest it
leaves the data unchanged and replies that there is nothing to edit; and
from any state other than `QUEST_SHARED`, a run of events containing no
text message (in particular, live location shares) forwards nothing — a
new text message is needed to re-enter `QUEST_SHARED`. -/
theorem edit_rewinds_and_blocks_forwarding :
    (∀ (u : Update) (m : Message) (d : UserData),
        u.message = some m → (d.quest).isSome →
        edit_quest u d =
          ⟨⟨some "LOCATION_SHARED", d.quest⟩, [⟨editPromptText, none⟩], [],
            [(m.chat_id, m.message_id)], none⟩)
      ∧ (∀ (u : Update) (m : Message) (d : UserData),
          u.message = some m → d.quest = none →
          edit_quest u d =
            ⟨d, [⟨noQuestText, none⟩], [],
              [(m.chat_id, m.message_id)], none⟩)
      ∧ (∀ (d : UserData) (evs : List InEvent),
          d.state ≠ some "QUEST_SHARED" →
          (∀ e ∈ evs, isText e = false) → (runAcc d evs).2 = []) := by
  refine ⟨?_, ?_, fun d evs hs ht => runAcc_forwards_of_no_text evs d hs ht⟩
  · intro u m d hm hq
    unfold edit_quest
    simp only [hm]
    rw [if_pos hq]
  · intro u m d hm hq
    unfold edit_quest
    simp only [hm]
    rw [if_neg (by simp [hq])]

/-- C9 witness: /edit on a session holding a quest, concretely. -/
theorem edit_rewinds_and_blocks_forwarding_witness :
    edit_quest cmdUpdate dQS =
      ⟨⟨some "LOCATION_SHARED", some "Tea party"⟩, [⟨editPromptText, none⟩],
        [], [(1, 4)], none⟩ :=
  edit_rewinds_and_blocks_forwarding.1 cmdUpdate ⟨1, 4, annUser, none,
    some "/start"⟩ dQS rfl (by decide)

/-- C10 counterexample: the claim concludes that the handler raises for
ANY update carrying only one of the `message` / `edited_message` fields;
but an edited-only live update handled in `QUEST_SHARED` completes without
an exception and emits its forward. -/
theorem edited_only_quest_shared_completes :
    (handle_location liveEditedUpdate dQS true).exc = none
      ∧ (handle_location liveEditedUpdate dQS true).forwards.length = 1 :=
  ⟨rfl, rfl⟩

/-- C10 amended: `handle_location` dereferences
`update.edited_message.location` unconditionally, so an update without
`edited_message` (e.g. an initial non-edited location message, or a static
pin) raises `AttributeError` on entry with no other effect, in every state;
and for an edited-only update carrying a location, in every state other
than `QUEST_SHARED` the fallback branch replies through `update.message`
and raises `AttributeError` there. -/
theorem location_handler_raises_on_one_sided_updates :
    (∀ (u : Update) (d : UserData) (b : Bool),
        u.edited_message = none →
        handle_location u d b = ⟨d, [], [], [], some .attributeError⟩)
      ∧ (∀ (u : Update) (em : Message) (loc : Location) (d : UserData)
          (b : Bool),
          u.edited_message = some em → em.location = some loc →
          u.message = none → d.state ≠ some "QUEST_SHARED" →
          (handle_location u d b).exc = some .attributeError) := by
  constructor
  · intro u d b h
    unfold handle_location
    simp only [h]
  · intro u em loc d b hem hloc hmsg hs
    unfold handle_location
    simp only [hem, hloc]
    split
    · exact locTail_exc_of_no_message u loc em _ _ b (by simp) hmsg
    · exact locTail_exc_of_no_message u loc em _ _ b hs hmsg

/-- C10 amended witness: a static pin delivered as a plain (non-edited)
message raises `AttributeError` on entry, leaving the `QUEST_SHARED`
session unchanged with no reply and no forward. -/
theorem location_handler_raises_on_one_sided_updates_witness :
    handle_location pinMsgUpdate dQS true =
      ⟨dQS, [], [], [], some PyErr.attributeError⟩ :=
  location_handler_raises_on_one_sided_updates.1 pinMsgUpdate dQS true rfl

end Portal
